import Mathlib

/-!
Verification of the quota-governed sync controller (src/main.py).

Strings are modelled as `List Char`.  Python `str.lower()` is modelled as
ASCII lowercasing (`asciiLowerChar`): every character occurring in the
classification patterns and the messages of interest is ASCII or U+2018/U+2019,
for which Python lowercasing coincides with this model.  Machine integers are
Lean `Int` (Python integers are unbounded).  Threshold constants that Python
computes with float arithmetic (`int(10000 * 0.95)` and friends) are embedded
as the exact integers those float expressions evaluate to.
-/

namespace GPhoto

/-- ASCII apostrophe, written via its code point so that no string literal in
this file carries a quote character. -/
def apos : Char := Char.ofNat 39

/-- Typographic right single quotation mark U+2019. -/
def typApos : Char := Char.ofNat 0x2019

/-- Typographic left single quotation mark U+2018. -/
def typAposL : Char := Char.ofNat 0x2018

/-- ASCII lowercasing of one character (model of Python str.lower, which agrees
with this on every character appearing in the patterns below). -/
def asciiLowerChar (c : Char) : Char :=
  if 65 ≤ c.toNat ∧ c.toNat ≤ 90 then Char.ofNat (c.toNat + 32) else c

/-- ASCII uppercasing of one character (used only to quantify over letter-case
variants of a message). -/
def asciiUpperChar (c : Char) : Char :=
  if 97 ≤ c.toNat ∧ c.toNat ≤ 122 then Char.ofNat (c.toNat - 32) else c

/-- Model of Python `message.lower()`. -/
def pyLower (s : List Char) : List Char := s.map asciiLowerChar

/-- One replacement step of main.py line 629: typographic quotes U+2019 and
U+2018 become the ASCII apostrophe. -/
def normQuoteChar (c : Char) : Char :=
  if c = typApos ∨ c = typAposL then apos else c

/-- `message.lower().replace(u2019, apos).replace(u2018, apos)` from
`is_nonrecoverable_media_error` (main.py line 629). -/
def normalizeMsg (s : List Char) : List Char := (pyLower s).map normQuoteChar

/-- `strStartsWith pat s` is true when `pat` is a prefix of `s`. -/
def strStartsWith : List Char → List Char → Bool
  | [], _ => true
  | _ :: _, [] => false
  | a :: as, b :: bs => a = b && strStartsWith as bs

/-- Python substring containment `pat in s`. -/
def strContainsSub : List Char → List Char → Bool
  | [], pat => pat.isEmpty
  | s@(_ :: rest), pat => strStartsWith pat s || strContainsSub rest pat

/-- Python `s.endswith(pat)`. -/
def strEndsWith (s pat : List Char) : Bool :=
  strStartsWith pat.reverse s.reverse

/-- Pattern list of `is_daily_quota_exceeded` (main.py lines 141-145); the
apostrophes of the source literals are spliced in as `apos`. -/
def dailyIndicator1 : List Char := "all requests per day".toList

def dailyIndicator2 : List Char :=
  "quota exceeded for quota metric ".toList ++ apos ::
    "all requests".toList ++ [apos]

def dailyIndicator3 : List Char :=
  "quota metric ".toList ++ apos :: "all requests".toList ++ [apos] ++
    " and limit ".toList ++ apos :: "all requests per day".toList ++ [apos]

def daily_quota_indicators : List (List Char) :=
  [dailyIndicator1, dailyIndicator2, dailyIndicator3]

/-- `is_daily_quota_exceeded` (main.py lines 138-146). -/
def is_daily_quota_exceeded (stderr : List Char) : Bool :=
  daily_quota_indicators.any (fun ind => strContainsSub (pyLower stderr) ind)

/-- Pattern list of `is_nonrecoverable_media_error` (main.py lines 630-634). -/
def mediaPattern1 : List Char :=
  "error while trying to create this media item".toList

def mediaPattern2 : List Char :=
  "upload failed: failed: there was an error while trying to create this media item".toList

def mediaPattern3 : List Char :=
  "it may be damaged or use a file format that preview doesn".toList ++
    apos :: "t recognize".toList

def known_patterns : List (List Char) :=
  [mediaPattern1, mediaPattern2, mediaPattern3]

/-- `is_nonrecoverable_media_error` (main.py lines 623-635). -/
def is_nonrecoverable_media_error (message : List Char) : Bool :=
  if message.isEmpty then false
  else known_patterns.any (fun p => strContainsSub (normalizeMsg message) p)

/-- Transient rate-limit detection inside `run_cmd` (main.py lines 736-740);
applied to the already-lowercased stderr. -/
def is_transient_rate_limit (stderr_lower : List Char) : Bool :=
  strContainsSub stderr_lower ("quota exceeded".toList) ||
  strContainsSub stderr_lower ("too many requests".toList) ||
  strContainsSub stderr_lower ("rate limit".toList)

/-! ## Quota constants and gate (main.py lines 54-60, 528-582) -/

def API_QUOTA_LIMIT : Int := 10000

def SAFETY_RESERVE : Int := 300

/-- `int(API_QUOTA_LIMIT * STOP_THRESHOLD)` with STOP_THRESHOLD = 0.95;
Python double arithmetic yields exactly 9500. -/
def stop_threshold_limit : Int := 9500

/-- `API_QUOTA_LIMIT - SAFETY_RESERVE` (main.py line 537). -/
def effective_limit : Int := API_QUOTA_LIMIT - SAFETY_RESERVE

/-- `percentage >= CRITICAL_THRESHOLD` with CRITICAL_THRESHOLD = 0.9 holds for
integer request counts exactly when the count is at least 9000. -/
def critical_limit : Int := 9000

/-- `percentage >= WARNING_THRESHOLD` with WARNING_THRESHOLD = 0.8 holds for
integer request counts exactly when the count is at least 8000. -/
def warning_limit : Int := 8000

/-- `check_api_quota` (main.py lines 528-582), as a function of the loaded
`api_requests` counter and the `requests_needed` argument.  The warning and
critical branches only log and return True. -/
def check_api_quota (api_requests : Int) (requests_needed : Int) : Bool :=
  let projected_requests := api_requests + requests_needed
  if stop_threshold_limit ≤ api_requests then false
  else if effective_limit ≤ api_requests then false
  else if stop_threshold_limit ≤ projected_requests then false
  else if critical_limit ≤ api_requests then true
  else if warning_limit ≤ api_requests then true
  else true

def UPLOAD_QUOTA_LIMIT : Int := 53687091200

/-- `new_total / UPLOAD_QUOTA_LIMIT >= STOP_THRESHOLD` holds for integer byte
counts exactly when the total is at least 0.95 * 53687091200 = 51002736640. -/
def upload_stop_limit : Int := 51002736640

/-- `check_upload_quota` (main.py lines 585-620), as a function of the loaded
`uploaded_bytes` counter and the file size.  The warning and critical branches
only log and return True. -/
def check_upload_quota (uploaded_bytes : Int) (file_size : Int) : Bool :=
  let new_total := uploaded_bytes + file_size
  if upload_stop_limit ≤ new_total then false
  else true

/-! ## Persistent quota ledger (main.py lines 367-525) -/

/-- One persisted `daily_quota.json` record.  The informational
`quota_source` tag is omitted: the counters returned by `load_daily_quota`
do not depend on it. -/
structure QuotaData where
  date : Int
  api_requests : Int
  uploaded_bytes : Int
deriving DecidableEq

/-- `load_daily_quota` (main.py lines 367-474) as a function of:
today (PST date), the stored record (`none` when the file is missing or
unreadable), the Monitoring-API reading (`none` when unavailable) and the
parsed `INITIAL_API_REQUESTS` override (`none` when unset or invalid).
Returns the `(api_requests, uploaded_bytes)` pair the Python function returns. -/
def load_daily_quota (today : Int) (stored : Option QuotaData)
    (apiValue : Option Int) (manual : Option Int) : Int × Int :=
  let fresh : Int × Int :=
    match apiValue with
    | some a => (a, 0)
    | none =>
      match manual with
      | some m => (m, 0)
      | none => (0, 0)
  match stored with
  | none => fresh
  | some q =>
    if q.date = today then
      match apiValue with
      | some a => (a, q.uploaded_bytes)
      | none =>
        match manual with
        | some m =>
          if q.api_requests < m then (m, q.uploaded_bytes)
          else (q.api_requests, q.uploaded_bytes)
        | none => (q.api_requests, q.uploaded_bytes)
    else fresh

/-- `increment_api_request` (main.py lines 489-499), effect on the counter. -/
def increment_api_request (api_requests : Int) : Int := api_requests + 1

/-- `decrement_api_requests` (main.py lines 502-512): clamped at zero. -/
def decrement_api_requests (api_requests : Int) (count : Int) : Int :=
  max 0 (api_requests - count)

/-- `increment_upload_bytes` (main.py lines 515-525), effect on the counter. -/
def increment_upload_bytes (uploaded_bytes : Int) (bytes_count : Int) : Int :=
  uploaded_bytes + bytes_count

/-- One read-modify-write mutator call against the ledger. -/
inductive LedgerOp where
  | incReq
  | incBytes (n : Int)
  | decReq (n : Int)
deriving DecidableEq

/-- Effect of one mutator on the `(api_requests, uploaded_bytes)` pair. -/
def applyLedgerOp (s : Int × Int) : LedgerOp → Int × Int
  | .incReq => (increment_api_request s.1, s.2)
  | .incBytes n => (s.1, increment_upload_bytes s.2 n)
  | .decReq n => (decrement_api_requests s.1 n, s.2)

/-- Effect of a sequence of mutator calls. -/
def applyLedgerOps (s : Int × Int) (ops : List LedgerOp) : Int × Int :=
  ops.foldl applyLedgerOp s

/-! ## Remote-call executor `run_cmd` (main.py lines 638-753)

The ledger is read and written through `load_daily_quota`/`save_daily_quota`
on every access; within a single run (same PST day) this amounts to one
mutable `requests` counter, which is what the model carries.  The external
world of one invocation — the result of each `subprocess.run`, the value the
Monitoring API would report, the wall-clock readings, and what
`get_quota_reset_time` returns — is collected in `RunEnv`. -/

/-- Result of one `subprocess.run` call. -/
structure CmdResult where
  returncode : Int
  stdout : List Char
  stderr : List Char
deriving DecidableEq

/-- The module-level sync bookkeeping `LAST_SYNC_TIME` / `LAST_SYNC_UPLOADS`
(main.py lines 97-98). -/
structure SyncState where
  lastSyncTime : Option Int
  lastSyncUploads : Int
deriving DecidableEq

/-- External world of one `run_cmd` invocation: `results k` is the outcome of
the subprocess call of attempt `k` (1-based); `syncValue` is the request count
the Monitoring API reports during this invocation (`none` when unavailable);
`preTime`/`postTime` are the `time.time()` readings at pre-flight and in the
success branch; `resetTime`/`secondsUntilReset` is what
`get_quota_reset_time` returns (next PST midnight). -/
structure RunEnv where
  results : Nat → CmdResult
  syncValue : Option Int
  preTime : Int
  postTime : Int
  resetTime : Int
  secondsUntilReset : Int

/-- Mutable state `run_cmd` touches: the persisted request counter and the
sync bookkeeping. -/
structure RunState where
  requests : Int
  sync : SyncState
deriving DecidableEq

def SYNC_INTERVAL_UPLOADS : Int := 15

def SYNC_INTERVAL_SECONDS : Int := 300

/-- `sync_quota_from_api` (main.py lines 303-364): overwrites the request
counter with the Monitoring-API value and reports success; a no-op reporting
failure when the API is unavailable. -/
def sync_quota_from_api (env : RunEnv) (requests : Int) : Int × Bool :=
  match env.syncValue with
  | some a => (a, true)
  | none => (requests, false)

/-- A scheduled sync call site (main.py lines 668-670 and 692-694): on
success, `LAST_SYNC_TIME` is set to the current reading and
`LAST_SYNC_UPLOADS` is reset. -/
def scheduledSync (env : RunEnv) (now : Int) (s : RunState) : RunState :=
  let out := sync_quota_from_api env s.requests
  if out.2 then { requests := out.1, sync := { lastSyncTime := some now, lastSyncUploads := 0 } }
  else { s with requests := out.1 }

/-- The pre-flight `should_sync` decision (main.py lines 654-665). -/
def shouldSyncPre (env : RunEnv) (sync : SyncState) : Bool :=
  match sync.lastSyncTime with
  | none => true
  | some t =>
    decide (SYNC_INTERVAL_SECONDS ≤ env.preTime - t) ||
    decide (SYNC_INTERVAL_UPLOADS ≤ sync.lastSyncUploads + 1)

/-- The success-branch sync decision (main.py lines 688-691), evaluated after
`LAST_SYNC_UPLOADS` has been incremented. -/
def shouldSyncPost (env : RunEnv) (sync : SyncState) : Bool :=
  match sync.lastSyncTime with
  | none => true
  | some t =>
    decide (SYNC_INTERVAL_SECONDS ≤ env.postTime - t) ||
    decide (SYNC_INTERVAL_UPLOADS ≤ sync.lastSyncUploads)

/-- How one `run_cmd` invocation ends: normal return, `QuotaExceededError`
(carrying what `get_quota_reset_time` returned), `RuntimeError` on a
non-recoverable media error, or `RuntimeError` after exhausting retries. -/
inductive RunOutcome where
  | success (out : List Char)
  | quotaExceeded (resetTime : Int) (secondsUntilReset : Int)
  | mediaError (msg : List Char)
  | cmdError (msg : List Char)
deriving DecidableEq

/-- Default message of the final `RuntimeError(last_error or ...)`. -/
def rcloneErrorMsg : List Char := "rclone error".toList

/-- Default message of the media-error `RuntimeError(stderr or ...)`. -/
def mediaErrorDefaultMsg : List Char :=
  "rclone error: non-recoverable media error".toList

/-- The retry loop of `run_cmd` (main.py lines 677-753).  `fuel` is the number
of attempts still allowed, `attempt` the 1-based index of the next attempt.
The third component of the result collects the durations passed to
`time.sleep`. -/
def runCmdLoop (env : RunEnv) (cooldown : Int) (is_gphotos_api : Bool) :
    Nat → Nat → RunState → Option (List Char) → List Int →
    RunOutcome × RunState × List Int
  | 0, _, s, lastError, sleeps =>
    (.cmdError (lastError.getD rcloneErrorMsg), s, sleeps)
  | fuel + 1, attempt, s, lastError, sleeps =>
    let result := env.results attempt
    if result.returncode = 0 then
      let s2 :=
        if is_gphotos_api then
          let sync1 : SyncState :=
            { s.sync with lastSyncUploads := s.sync.lastSyncUploads + 1 }
          if shouldSyncPost env sync1 then
            scheduledSync env env.postTime { s with sync := sync1 }
          else { s with sync := sync1 }
        else s
      (.success result.stdout, s2, sleeps)
    else
      let stderr := result.stderr
      let lastError2 := some stderr
      if is_daily_quota_exceeded stderr then
        let s2 :=
          if is_gphotos_api then
            { s with requests := (sync_quota_from_api env s.requests).1 }
          else s
        (.quotaExceeded env.resetTime env.secondsUntilReset, s2, sleeps)
      else if is_nonrecoverable_media_error stderr then
        (.mediaError (if stderr.isEmpty then mediaErrorDefaultMsg else stderr), s, sleeps)
      else if is_gphotos_api && !(check_api_quota s.requests 0) then
        (.quotaExceeded env.resetTime env.secondsUntilReset, s, sleeps)
      else if is_transient_rate_limit (pyLower stderr) then
        runCmdLoop env cooldown is_gphotos_api fuel (attempt + 1) s lastError2
          (sleeps ++ [cooldown * (attempt : Int) * 2])
      else
        runCmdLoop env cooldown is_gphotos_api fuel (attempt + 1) s lastError2
          (sleeps ++ [cooldown * (attempt : Int)])

/-- `run_cmd` (main.py lines 638-753).  `estimated_requests` is the legacy
argument the source keeps for API compatibility. -/
def runCmd (env : RunEnv) (retries : Nat) (cooldown : Int)
    (is_gphotos_api : Bool) (estimated_requests : Int) (s : RunState) :
    RunOutcome × RunState × List Int :=
  if is_gphotos_api then
    let s1 := if shouldSyncPre env s.sync then scheduledSync env env.preTime s else s
    if check_api_quota s1.requests 0 = false then
      (.quotaExceeded env.resetTime env.secondsUntilReset, s1, [])
    else
      runCmdLoop env cooldown is_gphotos_api retries 1 s1 none []
  else
    runCmdLoop env cooldown is_gphotos_api retries 1 s none []

/-! ## `upload_file` (main.py lines 801-875) and the main loop (lines 1004-1038) -/

/-- One `FAILED` mapping entry: reason text and the `datetime.now()`
timestamp. -/
structure FailEntry where
  reason : List Char
  timestamp : Int
deriving DecidableEq

/-- The reason string recorded for a permanently rejected file
(main.py lines 861-864). -/
def rejectionReason : List Char :=
  ("Google Photos rejected the media item as damaged or unsupported. " ++
    "Re-encode or inspect the original file before retrying.").toList

/-- Persistent per-run bookkeeping touched by `upload_file`: the `DONE` set,
the `FAILED` mapping, the uploaded-bytes counter and the executor state. -/
structure UploadState where
  done : List (List Char)
  failed : List (List Char × FailEntry)
  uploadedBytes : Int
  run : RunState

/-- How one `upload_file` call ends, as seen by the main loop: normal return
after success, `QuotaExceededError` propagating, or an exception swallowed by
the handler (run continues with the next file). -/
inductive UploadOutcome where
  | ok
  | quotaStop (resetTime : Int) (secondsUntilReset : Int)
  | handledError
deriving DecidableEq

/-- `upload_file` (main.py lines 801-875).  `now` is the `datetime.now()`
reading used for the failure timestamp.  Album bookkeeping and metrics do not
affect the modelled state and are omitted. -/
def upload_file (env : RunEnv) (now : Int) (relpath : List Char)
    (file_size : Int) (st : UploadState) : UploadOutcome × UploadState :=
  if check_upload_quota st.uploadedBytes file_size = false then
    (.quotaStop env.resetTime env.secondsUntilReset, st)
  else
    let r := runCmd env 5 30 true 1 st.run
    match r.1 with
    | .success _ =>
      (.ok, { st with
        uploadedBytes := increment_upload_bytes st.uploadedBytes file_size,
        done := st.done.insert relpath,
        run := r.2.1 })
    | .quotaExceeded rt su => (.quotaStop rt su, { st with run := r.2.1 })
    | .mediaError msg =>
      if is_nonrecoverable_media_error msg then
        (.handledError, { st with
          failed := (relpath, ⟨rejectionReason, now⟩) :: st.failed,
          done := st.done.insert relpath,
          run := r.2.1 })
      else (.handledError, { st with run := r.2.1 })
    | .cmdError msg =>
      if is_nonrecoverable_media_error msg then
        (.handledError, { st with
          failed := (relpath, ⟨rejectionReason, now⟩) :: st.failed,
          done := st.done.insert relpath,
          run := r.2.1 })
      else (.handledError, { st with run := r.2.1 })

/-- The file identifiers present in the `FAILED` mapping. -/
def failedKeys (st : UploadState) : List (List Char) :=
  st.failed.map Prod.fst

/-- `low.endswith(EXT_TUPLE)`: true when some extension of the list is a
suffix. -/
def endsWithAny (exts : List (List Char)) (low : List Char) : Bool :=
  exts.any (fun e => strEndsWith low e)

/-- Per-file environment of the main loop: the recognised extension lists,
the executor environment for each file and the failure-timestamp clock. -/
structure MainEnv where
  photoExt : List (List Char)
  videoExt : List (List Char)
  uploadEnv : List Char → RunEnv
  now : Int

/-- The per-file loop of `main` (main.py lines 1004-1038): skip files in
`DONE`, then files in `FAILED`, then files of unrecognised type; otherwise
invoke `upload_file`, halting the run when `QuotaExceededError` propagates.
The second component collects the files actually passed to the executor, the
third is true when the run was halted by the quota signal. -/
def main_loop (menv : MainEnv) (st : UploadState) (invoked : List (List Char)) :
    List (List Char × Int) → UploadState × List (List Char) × Bool
  | [] => (st, invoked, false)
  | (relpath, file_size) :: rest =>
    if relpath ∈ st.done then main_loop menv st invoked rest
    else if relpath ∈ failedKeys st then main_loop menv st invoked rest
    else
      let low := pyLower relpath
      if !(endsWithAny menv.photoExt low || endsWithAny menv.videoExt low) then
        main_loop menv st invoked rest
      else
        let res := upload_file (menv.uploadEnv relpath) menv.now relpath file_size st
        match res.1 with
        | .quotaStop _ _ => (res.2, invoked ++ [relpath], true)
        | _ => main_loop menv res.2 (invoked ++ [relpath]) rest

/-! ## Letter-case variants of a message (for the classification scenario) -/

/-- The composite normalisation applied to each character by
`is_nonrecoverable_media_error`. -/
def normChar (c : Char) : Char := normQuoteChar (asciiLowerChar c)

/-- Force one character to upper or lower case according to a flag. -/
def caseFlag (b : Bool) (c : Char) : Char :=
  if b then asciiUpperChar c else asciiLowerChar c

/-- Recase a message according to a list of per-position flags; positions
beyond the flag list keep their original case. -/
def applyCaseFlags : List Bool → List Char → List Char
  | _, [] => []
  | [], c :: cs => c :: applyCaseFlags [] cs
  | b :: bs, c :: cs => caseFlag b c :: applyCaseFlags bs cs

/-- A character whose normalised form is unchanged by forcing either case. -/
def goodChar (c : Char) : Prop :=
  normChar (asciiUpperChar c) = normChar c ∧ normChar (asciiLowerChar c) = normChar c

instance : DecidablePred goodChar := fun c =>
  inferInstanceAs (Decidable (_ ∧ _))

/-- The Preview diagnostic message, with a typographic (U+2019) or plain
ASCII apostrophe according to `typ`. -/
def previewMessage (typ : Bool) : List Char :=
  "It may be damaged or use a file format that Preview doesn".toList ++
    (if typ then typApos else apos) :: "t recognize.".toList

/-! ## Concrete inputs used by counterexamples and witnesses -/

def c1Env : RunEnv :=
  ⟨fun _ => ⟨0, "ok".toList, []⟩, none, 0, 0, 111, 222⟩

def c1State : RunState := ⟨100, ⟨none, 0⟩⟩

def c3Stderr : List Char :=
  "googleapi: Error 429: All requests per day quota exceeded".toList

def c3Env : RunEnv := ⟨fun _ => ⟨1, [], c3Stderr⟩, none, 0, 0, 333, 444⟩

def c3State : RunState := ⟨100, ⟨none, 0⟩⟩

def c6Stderr : List Char :=
  "upload failed: Failed: There was an error while trying to create this media item. (3)".toList

def c6Env : RunEnv := ⟨fun _ => ⟨1, [], c6Stderr⟩, none, 0, 0, 111, 222⟩

def c6State : RunState := ⟨100, ⟨none, 0⟩⟩

def c6Path : List Char := "2021/IMG_0001.jpg".toList

def c6Upload : UploadState := ⟨[], [], 0, c6State⟩

def c7Env : RunEnv :=
  ⟨fun k => if k = 1 then ⟨1, [], "rate limit hit".toList⟩ else ⟨1, [], "boom".toList⟩,
    none, 0, 0, 111, 222⟩

def c7State : RunState := ⟨100, ⟨none, 0⟩⟩

def c5PathB : List Char := "b.jpg".toList

def c5Upload : UploadState :=
  ⟨[c5PathB], [(c5PathB, ⟨"previous failure".toList, 0⟩)], 0, ⟨100, ⟨none, 0⟩⟩⟩

def c5Menv : MainEnv :=
  ⟨[".jpg".toList], [".mp4".toList], fun _ => c1Env, 77⟩

def c8Ops : List LedgerOp := [LedgerOp.decReq 5, LedgerOp.incReq, LedgerOp.incBytes 7]

/-! ## Helper lemmas -/

theorem scheduledSync_syncNone (env : RunEnv) (now : Int) (s : RunState)
    (h : env.syncValue = none) : scheduledSync env now s = s := by
  cases s
  simp [scheduledSync, sync_quota_from_api, h]

theorem preflight_syncNone (env : RunEnv) (s : RunState)
    (h : env.syncValue = none) :
    (if shouldSyncPre env s.sync then scheduledSync env env.preTime s else s) = s := by
  split
  · exact scheduledSync_syncNone env env.preTime s h
  · rfl

theorem runCmdLoop_requests_syncNone (env : RunEnv) (cooldown : Int) (g : Bool)
    (h : env.syncValue = none) :
    ∀ (fuel attempt : Nat) (s : RunState) (lastErr : Option (List Char))
      (sleeps : List Int),
      (runCmdLoop env cooldown g fuel attempt s lastErr sleeps).2.1.requests =
        s.requests := by
  intro fuel
  induction fuel with
  | zero => intro attempt s lastErr sleeps; rfl
  | succ n ih =>
    intro attempt s lastErr sleeps
    simp only [runCmdLoop]
    split
    · -- success branch
      split
      · split
        · simp [scheduledSync, sync_quota_from_api, h]
        · rfl
      · rfl
    · split
      · -- daily-quota branch
        split
        · simp [sync_quota_from_api, h]
        · rfl
      · split
        · rfl
        · split
          · rfl
          · split
            · exact ih (attempt + 1) s _ _
            · exact ih (attempt + 1) s _ _

theorem runCmd_requests_syncNone (env : RunEnv) (retries : Nat)
    (cooldown : Int) (g : Bool) (e : Int) (s : RunState)
    (h : env.syncValue = none) :
    (runCmd env retries cooldown g e s).2.1.requests = s.requests := by
  unfold runCmd
  split
  · rw [preflight_syncNone env s h]
    by_cases hc : check_api_quota s.requests 0 = false
    · simp [hc]
    · simp [hc, runCmdLoop_requests_syncNone env cooldown g h retries 1 s none []]
  · exact runCmdLoop_requests_syncNone env cooldown g h retries 1 s none []

/-! ## Claim theorems -/

/-- C2: the request-quota gate returns Stop (False) exactly when actual usage
has reached the stop threshold, or actual usage has reached the limit minus
the safety reserve, or the projected total reaches the stop threshold; in
particular it stops whenever the reserve is exhausted regardless of the
projection, stops at the stop threshold even with projection zero, and stops
for usage 9400 with projection 150. -/
theorem c2_quota_gate_stop_iff :
    (∀ u p : Int, 0 ≤ u → 0 ≤ p →
      (check_api_quota u p = false ↔
        (stop_threshold_limit ≤ u ∨ effective_limit ≤ u ∨
          stop_threshold_limit ≤ u + p))) ∧
    (∀ u p : Int, 0 ≤ u → 0 ≤ p → effective_limit ≤ u →
      check_api_quota u p = false) ∧
    (∀ u : Int, 0 ≤ u → stop_threshold_limit ≤ u → check_api_quota u 0 = false) ∧
    check_api_quota 9400 150 = false := by
  refine ⟨?_, ?_, ?_, by decide⟩
  · intro u p _ _
    simp only [check_api_quota, stop_threshold_limit, effective_limit,
      API_QUOTA_LIMIT, SAFETY_RESERVE, critical_limit, warning_limit]
    split_ifs <;> simp <;> omega
  · intro u p _ _ h
    simp only [check_api_quota, stop_threshold_limit, effective_limit,
      API_QUOTA_LIMIT, SAFETY_RESERVE, critical_limit, warning_limit] at h ⊢
    split_ifs <;> simp <;> omega
  · intro u _ h
    simp only [check_api_quota, stop_threshold_limit, effective_limit,
      API_QUOTA_LIMIT, SAFETY_RESERVE, critical_limit, warning_limit] at h ⊢
    split_ifs <;> simp <;> omega

/-- C2 witness: the gate applied at usage 9700 with projection 5. -/
theorem c2_quota_gate_stop_iff_witness : check_api_quota 9700 5 = false :=
  c2_quota_gate_stop_iff.2.1 9700 5 (by decide) (by decide) (by decide)

/-- C4: loading the ledger on a day different from the persisted record
yields a fresh record whose uploaded bytes are zero and whose request count
is zero unless the Monitoring API or the manual override supplies a nonzero
seed. -/
theorem c4_new_day_reset (today : Int) (q : QuotaData)
    (apiValue manual : Option Int) (hday : q.date ≠ today) :
    (load_daily_quota today (some q) apiValue manual).2 = 0 ∧
    (apiValue = none → manual = none →
      (load_daily_quota today (some q) apiValue manual).1 = 0) ∧
    ((load_daily_quota today (some q) apiValue manual).1 ≠ 0 →
      (∃ a, apiValue = some a ∧ a ≠ 0) ∨
        (apiValue = none ∧ ∃ m, manual = some m ∧ m ≠ 0)) := by
  cases apiValue with
  | some a => refine ⟨?_, ?_, ?_⟩ <;> simp [load_daily_quota, hday]
  | none =>
    cases manual with
    | some m => refine ⟨?_, ?_, ?_⟩ <;> simp [load_daily_quota, hday]
    | none => refine ⟨?_, ?_, ?_⟩ <;> simp [load_daily_quota, hday]

/-- C4 witness: day 1 with a record persisted on day 0 and no override
yields zero counters. -/
theorem c4_new_day_reset_witness :
    (load_daily_quota 1 (some ⟨0, 50, 60⟩) none none).2 = 0 ∧
    (none = (none : Option Int) → none = (none : Option Int) →
      (load_daily_quota 1 (some ⟨0, 50, 60⟩) none none).1 = 0) ∧
    ((load_daily_quota 1 (some ⟨0, 50, 60⟩) none none).1 ≠ 0 →
      (∃ a, (none : Option Int) = some a ∧ a ≠ 0) ∨
        ((none : Option Int) = none ∧ ∃ m, (none : Option Int) = some m ∧ m ≠ 0)) :=
  c4_new_day_reset 1 ⟨0, 50, 60⟩ none none (by decide)

/-- C8: starting from a ledger state with a non-negative request counter,
any sequence of increment and decrement mutator calls with non-negative
arguments keeps the request counter non-negative (the decrement clamps at
zero). -/
theorem c8_requests_never_negative (ops : List LedgerOp) (s : Int × Int)
    (hs : 0 ≤ s.1)
    (hdec : ∀ n, LedgerOp.decReq n ∈ ops → 0 ≤ n)
    (hbytes : ∀ n, LedgerOp.incBytes n ∈ ops → 0 ≤ n) :
    0 ≤ (applyLedgerOps s ops).1 := by
  induction ops generalizing s with
  | nil => simpa [applyLedgerOps] using hs
  | cons op rest ih =>
    have h1 : 0 ≤ (applyLedgerOp s op).1 := by
      cases op with
      | incReq =>
        simp only [applyLedgerOp, increment_api_request]
        omega
      | incBytes n => simpa [applyLedgerOp] using hs
      | decReq n =>
        simp only [applyLedgerOp, decrement_api_requests]
        exact le_max_left 0 _
    have hrest := ih (applyLedgerOp s op) h1
      (fun n hn => hdec n (List.mem_cons_of_mem _ hn))
      (fun n hn => hbytes n (List.mem_cons_of_mem _ hn))
    simpa [applyLedgerOps, List.foldl_cons] using hrest

/-- C8 witness: a decrement below zero followed by increments, starting from
counter 3; the counter stays non-negative. -/
theorem c8_requests_never_negative_witness :
    0 ≤ (applyLedgerOps (3, 0) c8Ops).1 :=
  c8_requests_never_negative c8Ops (3, 0) (by decide)
    (by intro n hn; simp [c8Ops] at hn; omega)
    (by intro n hn; simp [c8Ops] at hn; omega)

/-- C1 counterexample: a quota-relevant operation succeeding on the first
attempt with estimated cost 5 leaves the ledger counter at its initial value
100 instead of raising it to 105 (and the code has no rolling cost-estimate
sequence at all). -/
theorem c1_counterexample :
    (runCmd c1Env 3 5 true 5 c1State).1 = RunOutcome.success ("ok".toList) ∧
    ¬ ((runCmd c1Env 3 5 true 5 c1State).2.1.requests = c1State.requests + 5) := by
  constructor
  · rfl
  · decide

/-- C1 (amended): on a Success classification the executor commits nothing
itself — when the reconciliation source is unavailable the ledger request
counter is exactly its pre-invocation value — and no rolling cost-estimate
sample exists in this revision. -/
theorem c1_success_no_commit (env : RunEnv) (retries : Nat)
    (cooldown e : Int) (s : RunState) (out : List Char)
    (hsync : env.syncValue = none)
    (hsucc : (runCmd env retries cooldown true e s).1 = RunOutcome.success out) :
    (runCmd env retries cooldown true e s).2.1.requests = s.requests :=
  runCmd_requests_syncNone env retries cooldown true e s hsync

/-- C1 witness for the amended theorem at the concrete success run. -/
theorem c1_success_no_commit_witness :
    (runCmd c1Env 3 5 true 5 c1State).2.1.requests = c1State.requests :=
  c1_success_no_commit c1Env 3 5 5 c1State ("ok".toList) rfl (by rfl)

/-- C3 counterexample: a first attempt whose stderr matches a daily-quota
pattern raises the quota-exceeded signal with the reset data but leaves the
ledger counter at 100 instead of committing the estimated cost 5. -/
theorem c3_counterexample :
    (runCmd c3Env 3 5 true 5 c3State).1 = RunOutcome.quotaExceeded 333 444 ∧
    ¬ ((runCmd c3Env 3 5 true 5 c3State).2.1.requests = c3State.requests + 5) := by
  constructor
  · rfl
  · decide

/-- C3 (amended): whenever any attempt of the retry loop fails with a
diagnostic matching a daily-quota-exhausted pattern, the executor performs no
further retry (no sleep is added) and immediately raises the quota-exceeded
signal carrying the reset timestamp and seconds-until-reset; it commits no
estimated cost — it only triggers a reconciliation sync, which leaves the
counter unchanged when the authoritative source is unavailable. -/
theorem c3_daily_quota_halts (env : RunEnv) (cooldown : Int) (g : Bool)
    (fuel attempt : Nat) (s : RunState) (lastErr : Option (List Char))
    (sleeps : List Int)
    (hsync : env.syncValue = none)
    (hrc : (env.results attempt).returncode ≠ 0)
    (hdaily : is_daily_quota_exceeded (env.results attempt).stderr = true) :
    runCmdLoop env cooldown g (fuel + 1) attempt s lastErr sleeps =
      (RunOutcome.quotaExceeded env.resetTime env.secondsUntilReset, s,
        sleeps) := by
  simp only [runCmdLoop]
  rw [if_neg hrc, if_pos hdaily]
  simp [sync_quota_from_api, hsync]

/-- C3 witness for the amended theorem: the daily-quota diagnostic arriving
on the second attempt, after a sleep has already been accumulated. -/
theorem c3_daily_quota_halts_witness :
    runCmdLoop c3Env 5 true 2 2 c3State (some ("boom".toList)) [5] =
      (RunOutcome.quotaExceeded c3Env.resetTime c3Env.secondsUntilReset,
        c3State, [5]) :=
  c3_daily_quota_halts c3Env 5 true 1 2 c3State (some ("boom".toList)) [5]
    rfl (by decide) (by decide)

/-- C6: an attempt whose stderr classifies as a permanent media rejection
(and not as daily-quota exhaustion) makes the retry loop stop immediately
with the media error, the state — in particular the ledger request counter —
unchanged and no sleep added; and `upload_file`, on such an executor outcome,
swallows the error, records the file both in the Done set and in the Failed
mapping with the rejection reason and timestamp, and reports an outcome on
which the main loop continues. -/
theorem c6_permanent_rejection :
    (∀ (env : RunEnv) (cooldown : Int) (g : Bool) (fuel attempt : Nat)
      (s : RunState) (lastErr : Option (List Char)) (sleeps : List Int),
      (env.results attempt).returncode ≠ 0 →
      is_daily_quota_exceeded (env.results attempt).stderr = false →
      is_nonrecoverable_media_error (env.results attempt).stderr = true →
      runCmdLoop env cooldown g (fuel + 1) attempt s lastErr sleeps =
        (RunOutcome.mediaError (env.results attempt).stderr, s, sleeps)) ∧
    (∀ (env : RunEnv) (now : Int) (relpath : List Char) (file_size : Int)
      (st : UploadState) (msg : List Char),
      check_upload_quota st.uploadedBytes file_size = true →
      (runCmd env 5 30 true 1 st.run).1 = RunOutcome.mediaError msg →
      is_nonrecoverable_media_error msg = true →
      (upload_file env now relpath file_size st).1 = UploadOutcome.handledError ∧
      relpath ∈ (upload_file env now relpath file_size st).2.done ∧
      (relpath, ⟨rejectionReason, now⟩) ∈
        (upload_file env now relpath file_size st).2.failed) := by
  constructor
  · intro env cooldown g fuel attempt s lastErr sleeps hrc hd hm
    have hne : (env.results attempt).stderr.isEmpty = false := by
      cases hse : (env.results attempt).stderr with
      | nil => rw [hse] at hm; simp [is_nonrecoverable_media_error] at hm
      | cons a l => simp
    simp only [runCmdLoop]
    rw [if_neg hrc, if_neg (by simp [hd]), if_pos hm, if_neg (by simp [hne])]
  · intro env now relpath file_size st msg hq hrun hm
    unfold upload_file
    rw [if_neg (by simp [hq])]
    simp only [hrun, hm]
    exact ⟨by simp, by simp [List.mem_insert_iff], by simp⟩

/-- C6 witness: both conjuncts applied at a concrete rejection run. -/
theorem c6_permanent_rejection_witness :
    (runCmdLoop c6Env 30 true 5 1 c6State none [] =
      (RunOutcome.mediaError c6Stderr, c6State, [])) ∧
    ((upload_file c6Env 77 c6Path 10 c6Upload).1 = UploadOutcome.handledError ∧
      c6Path ∈ (upload_file c6Env 77 c6Path 10 c6Upload).2.done ∧
      (c6Path, ⟨rejectionReason, 77⟩) ∈
        (upload_file c6Env 77 c6Path 10 c6Upload).2.failed) :=
  ⟨c6_permanent_rejection.1 c6Env 30 true 4 1 c6State none []
      (by decide) (by decide) (by decide),
    c6_permanent_rejection.2 c6Env 77 c6Path 10 c6Upload c6Stderr
      (by decide) (by decide) (by decide)⟩

/-- C7 helper: when every remaining attempt fails without a daily-quota or
media classification, the loop ends in the generic retry-exhausted error and
the state is unchanged. -/
theorem runCmdLoop_all_fail (env : RunEnv) (cooldown : Int) (g : Bool) :
    ∀ (fuel attempt : Nat) (s : RunState) (lastErr : Option (List Char))
      (sleeps : List Int),
      (g = true → check_api_quota s.requests 0 = true) →
      (∀ j ∈ List.range fuel,
        (env.results (attempt + j)).returncode ≠ 0 ∧
        is_daily_quota_exceeded (env.results (attempt + j)).stderr = false ∧
        is_nonrecoverable_media_error (env.results (attempt + j)).stderr = false) →
      (∃ msg, (runCmdLoop env cooldown g fuel attempt s lastErr sleeps).1 =
          RunOutcome.cmdError msg) ∧
      (runCmdLoop env cooldown g fuel attempt s lastErr sleeps).2.1 = s := by
  intro fuel
  induction fuel with
  | zero => intro attempt s lastErr sleeps _ _; exact ⟨⟨_, rfl⟩, rfl⟩
  | succ n ih =>
    intro attempt s lastErr sleeps hg hall
    obtain ⟨hrc, hd, hm⟩ := by simpa using hall 0 (by simp)
    have hgate : (g && !(check_api_quota s.requests 0)) = false := by
      cases g with
      | false => rfl
      | true => rw [hg rfl]; rfl
    have hall2 : ∀ j ∈ List.range n,
        (env.results (attempt + 1 + j)).returncode ≠ 0 ∧
        is_daily_quota_exceeded (env.results (attempt + 1 + j)).stderr = false ∧
        is_nonrecoverable_media_error (env.results (attempt + 1 + j)).stderr
          = false := by
      intro j hj
      have hmem : j + 1 ∈ List.range (n + 1) := by
        simp only [List.mem_range] at hj ⊢
        omega
      have heq : attempt + (j + 1) = attempt + 1 + j := by omega
      have := hall (j + 1) hmem
      rwa [heq] at this
    simp only [runCmdLoop]
    rw [if_neg hrc, if_neg (by simp [hd]), if_neg (by simp [hm]),
      if_neg (by simp [hgate])]
    cases htr : is_transient_rate_limit (pyLower (env.results attempt).stderr) with
    | true =>
      rw [if_pos rfl]
      exact ih (attempt + 1) s _ _ hg hall2
    | false =>
      rw [if_neg (by simp)]
      exact ih (attempt + 1) s _ _ hg hall2

/-- C7: in the retry loop, an attempt failing with a transient rate-limit
diagnostic sleeps cooldown x attempt x 2 before the next attempt, any other
failing attempt sleeps cooldown x attempt, and when all attempts fail
without a daily-quota or media classification the executor raises a generic
error with the ledger request counter unchanged. -/
theorem c7_retry_backoff :
    (∀ (env : RunEnv) (cooldown : Int) (g : Bool) (fuel attempt : Nat)
      (s : RunState) (lastErr : Option (List Char)) (sleeps : List Int),
      (env.results attempt).returncode ≠ 0 →
      is_daily_quota_exceeded (env.results attempt).stderr = false →
      is_nonrecoverable_media_error (env.results attempt).stderr = false →
      (g = true → check_api_quota s.requests 0 = true) →
      is_transient_rate_limit (pyLower (env.results attempt).stderr) = true →
      runCmdLoop env cooldown g (fuel + 1) attempt s lastErr sleeps =
        runCmdLoop env cooldown g fuel (attempt + 1) s
          (some (env.results attempt).stderr)
          (sleeps ++ [cooldown * (attempt : Int) * 2])) ∧
    (∀ (env : RunEnv) (cooldown : Int) (g : Bool) (fuel attempt : Nat)
      (s : RunState) (lastErr : Option (List Char)) (sleeps : List Int),
      (env.results attempt).returncode ≠ 0 →
      is_daily_quota_exceeded (env.results attempt).stderr = false →
      is_nonrecoverable_media_error (env.results attempt).stderr = false →
      (g = true → check_api_quota s.requests 0 = true) →
      is_transient_rate_limit (pyLower (env.results attempt).stderr) = false →
      runCmdLoop env cooldown g (fuel + 1) attempt s lastErr sleeps =
        runCmdLoop env cooldown g fuel (attempt + 1) s
          (some (env.results attempt).stderr)
          (sleeps ++ [cooldown * (attempt : Int)])) ∧
    (∀ (env : RunEnv) (retries : Nat) (cooldown e : Int) (s : RunState),
      env.syncValue = none →
      check_api_quota s.requests 0 = true →
      (∀ j ∈ List.range retries,
        (env.results (j + 1)).returncode ≠ 0 ∧
        is_daily_quota_exceeded (env.results (j + 1)).stderr = false ∧
        is_nonrecoverable_media_error (env.results (j + 1)).stderr = false) →
      (∃ msg, (runCmd env retries cooldown true e s).1 =
          RunOutcome.cmdError msg) ∧
      (runCmd env retries cooldown true e s).2.1.requests = s.requests) := by
  refine ⟨?_, ?_, ?_⟩
  · intro env cooldown g fuel attempt s lastErr sleeps hrc hd hm hg htr
    have hgate : (g && !(check_api_quota s.requests 0)) = false := by
      cases g with
      | false => rfl
      | true => rw [hg rfl]; rfl
    conv_lhs => rw [runCmdLoop]
    rw [if_neg hrc, if_neg (by simp [hd]), if_neg (by simp [hm]),
      if_neg (by simp [hgate]), if_pos htr]
  · intro env cooldown g fuel attempt s lastErr sleeps hrc hd hm hg htr
    have hgate : (g && !(check_api_quota s.requests 0)) = false := by
      cases g with
      | false => rfl
      | true => rw [hg rfl]; rfl
    conv_lhs => rw [runCmdLoop]
    rw [if_neg hrc, if_neg (by simp [hd]), if_neg (by simp [hm]),
      if_neg (by simp [hgate]), if_neg (by simp [htr])]
  · intro env retries cooldown e s hsync hgate hall
    unfold runCmd
    rw [if_pos rfl, preflight_syncNone env s hsync,
      if_neg (by simp [hgate])]
    have hall2 : ∀ j ∈ List.range retries,
        (env.results (1 + j)).returncode ≠ 0 ∧
        is_daily_quota_exceeded (env.results (1 + j)).stderr = false ∧
        is_nonrecoverable_media_error (env.results (1 + j)).stderr = false := by
      intro j hj
      have heq : j + 1 = 1 + j := by omega
      have := hall j hj
      rwa [heq] at this
    have := runCmdLoop_all_fail env cooldown true retries 1 s none []
      (fun _ => hgate) hall2
    exact ⟨this.1, by rw [this.2]⟩

/-- C7 witness: the exhaustion conjunct applied at a run whose three attempts
fail with a rate-limit diagnostic then generic errors. -/
theorem c7_retry_backoff_witness :
    (∃ msg, (runCmd c7Env 3 5 true 1 c7State).1 = RunOutcome.cmdError msg) ∧
    (runCmd c7Env 3 5 true 1 c7State).2.1.requests = c7State.requests :=
  c7_retry_backoff.2.2 c7Env 3 5 1 c7State rfl (by decide) (by decide)

/-- C5 helper: `upload_file` never removes an entry from the Failed
mapping. -/
theorem upload_file_failed_mono (env : RunEnv) (now : Int)
    (relpath : List Char) (file_size : Int) (st : UploadState)
    (x : List Char) (hx : x ∈ failedKeys st) :
    x ∈ failedKeys (upload_file env now relpath file_size st).2 := by
  unfold upload_file
  split
  · exact hx
  · cases hr : (runCmd env 5 30 true 1 st.run).1 with
    | success out =>
      simp only [hr]
      exact hx
    | quotaExceeded rt su =>
      simp only [hr]
      exact hx
    | mediaError msg =>
      simp only [hr]
      by_cases hm : is_nonrecoverable_media_error msg = true
      · simp only [hm, if_true]
        simp only [failedKeys, List.map_cons, List.mem_cons] at hx ⊢
        exact Or.inr hx
      · simp only [hm, if_false]
        exact hx
    | cmdError msg =>
      simp only [hr]
      by_cases hm : is_nonrecoverable_media_error msg = true
      · simp only [hm, if_true]
        simp only [failedKeys, List.map_cons, List.mem_cons] at hx ⊢
        exact Or.inr hx
      · simp only [hm, if_false]
        exact hx

/-- C5: a file identifier present in the Failed mapping when the loop starts
is never passed to the upload executor, whether or not it is also present in
the Done set. -/
theorem c5_failed_never_invoked (menv : MainEnv)
    (files : List (List Char × Int)) :
    ∀ (st : UploadState) (invoked : List (List Char)) (f : List Char),
      f ∈ failedKeys st → f ∉ invoked →
      f ∉ (main_loop menv st invoked files).2.1 := by
  induction files with
  | nil =>
    intro st invoked f _ hi
    simpa [main_loop] using hi
  | cons hd rest ih =>
    intro st invoked f hf hi
    obtain ⟨relpath, file_size⟩ := hd
    simp only [main_loop]
    split
    · exact ih st invoked f hf hi
    · split
      · exact ih st invoked f hf hi
      · rename_i hnotdone hnotfailed
        have hne : relpath ≠ f := fun h => hnotfailed (h ▸ hf)
        split
        · exact ih st invoked f hf hi
        · split
          · rename_i heq
            simp only [List.mem_append, List.mem_singleton]
            rintro (h | h)
            · exact hi h
            · exact hne h.symm
          · rename_i heq
            refine ih _ (invoked ++ [relpath]) f
              (upload_file_failed_mono _ _ _ _ _ _ hf) ?_
            simp only [List.mem_append, List.mem_singleton]
            rintro (h | h)
            · exact hi h
            · exact hne h.symm

/-- C5 witness: a file in both Done and Failed is not invoked. -/
theorem c5_failed_never_invoked_witness :
    c5PathB ∉ (main_loop c5Menv c5Upload [] [(c5PathB, 5)]).2.1 :=
  c5_failed_never_invoked c5Menv [(c5PathB, 5)] c5Upload [] c5PathB
    (by decide) (by decide)

/-- C9 helper: the two normalisation passes fuse into one character map. -/
theorem normalizeMsg_eq_map (s : List Char) :
    normalizeMsg s = s.map normChar := by
  rw [normalizeMsg, pyLower, List.map_map]
  rfl

/-- C9 helper: recasing never empties a nonempty message. -/
theorem applyCaseFlags_isEmpty (flags : List Bool) (c : Char) (cs : List Char) :
    (applyCaseFlags flags (c :: cs)).isEmpty = false := by
  cases flags <;> rfl

/-- C9 helper: recasing a message of case-stable characters does not change
its normalised form. -/
theorem applyCaseFlags_normChar :
    ∀ (cs : List Char) (flags : List Bool), (∀ c ∈ cs, goodChar c) →
      (applyCaseFlags flags cs).map normChar = cs.map normChar := by
  intro cs
  induction cs with
  | nil => intro flags _; cases flags <;> rfl
  | cons c cs ih =>
    intro flags hgood
    have hc : goodChar c := hgood c (List.mem_cons_self c cs)
    have hcs : ∀ d ∈ cs, goodChar d :=
      fun d hd => hgood d (List.mem_cons_of_mem c hd)
    cases flags with
    | nil =>
      simp only [applyCaseFlags, List.map_cons]
      rw [ih [] hcs]
    | cons b bs =>
      simp only [applyCaseFlags, List.map_cons]
      rw [ih bs hcs]
      cases b with
      | true => rw [show caseFlag true c = asciiUpperChar c from rfl, hc.1]
      | false => rw [show caseFlag false c = asciiLowerChar c from rfl, hc.2]

/-- C9: the Preview diagnostic message classifies as a permanent media
rejection with either a plain ASCII apostrophe or a typographic U+2019
apostrophe, and under any recasing of its letters. -/
theorem c9_preview_message_detected (flags : List Bool) (typ : Bool) :
    is_nonrecoverable_media_error (applyCaseFlags flags (previewMessage typ))
      = true := by
  have hgood : ∀ c ∈ previewMessage typ, goodChar c := by
    cases typ <;> decide
  have hmap : normalizeMsg (applyCaseFlags flags (previewMessage typ)) =
      normalizeMsg (previewMessage typ) := by
    rw [normalizeMsg_eq_map, normalizeMsg_eq_map]
    exact applyCaseFlags_normChar (previewMessage typ) flags hgood
  have hne : (applyCaseFlags flags (previewMessage typ)).isEmpty = false := by
    cases typ <;> exact applyCaseFlags_isEmpty flags _ _
  rw [is_nonrecoverable_media_error, hne, hmap]
  cases typ <;> decide

/-- C10: the executor treats the estimated-cost argument as dead: two
invocations that agree on everything but `estimated_requests` produce the
same outcome, the same final state and the same sleep trace. -/
theorem c10_estimated_requests_unused (env : RunEnv) (retries : Nat)
    (cooldown : Int) (is_gphotos_api : Bool) (e1 e2 : Int) (s : RunState) :
    runCmd env retries cooldown is_gphotos_api e1 s =
      runCmd env retries cooldown is_gphotos_api e2 s := rfl

end GPhoto
